import Mathlib

/-!
Verification of the statusline composition core of CCometixLine.

The development shallowly embeds the Rust sources:
  src/core/segments/threshold_utils.rs   (threshold resolver, config cache)
  src/core/segments/color_utils.rs       (color model conversions/serialization)
  src/core/segments/usage_5hour.rs       (5-hour usage segment)
  src/core/segments/usage_7day.rs        (7-day usage segment)
  src/ui/app.rs                          (editor operations, panel heights)

Machine floats (f64 utilization values) are modelled as rationals: every claim
settled here only depends on order comparisons between the utilization and the
integer-valued thresholds, which rationals model exactly (NaN inputs, which
fail every comparison in the code, are outside the model).  serde_json values
are modelled by an inductive JSON type at the value level; float payloads are
collapsed to a single constructor because the code under verification only
inspects numbers through as_u64, which rejects every float.
-/

namespace CCometix

/-- serde_json number: PosInt / NegInt / Float.  as_u64 succeeds only on the
PosInt (u64) variant, so the float payload is irrelevant to the embedded code
and is dropped. -/
inductive JNum where
  | uint (n : Nat)
  | negInt (m : Nat)
  | float
deriving DecidableEq, Repr

/-- serde_json::Value, at the value level. -/
inductive Json where
  | null
  | bool (b : Bool)
  | num (n : JNum)
  | str (s : String)
  | arr (xs : List Json)
  | obj (fields : List (String × Json))
deriving Repr

/-- Value::get(key) for JSON objects (None on every non-object). -/
def Json.getKey : Json → String → Option Json
  | .obj fields, k => fields.lookup k
  | _, _ => none

/-- Value::as_u64: Some only for unsigned-integer JSON numbers. -/
def Json.as_u64 : Json → Option Nat
  | .num (.uint n) => some n
  | _ => none

/-- Value::as_bool. -/
def Json.as_bool : Json → Option Bool
  | .bool b => some b
  | _ => none

/-- crate::config::AnsiColor - the three color shapes (u8 payloads). -/
inductive AnsiColor where
  | Color16 (c16 : Fin 256)
  | Color256 (c256 : Fin 256)
  | Rgb (r g b : Fin 256)
deriving DecidableEq, Repr

/-- crate::config::SegmentId - the closed segment-kind enumeration, the
eleven variants enumerated in src/ui/app.rs (toggle_current). -/
inductive SegmentId where
  | Model
  | Directory
  | Git
  | ContextWindow
  | Usage
  | Usage5Hour
  | Usage7Day
  | Cost
  | Session
  | OutputStyle
  | Update
deriving DecidableEq, Repr

/-- Icon text per icon-style mode (fields as accessed in src/ui/app.rs). -/
structure IconConfig where
  plain : String
  nerd_font : String
deriving Repr

/-- Base colors of a segment (fields as accessed in src/ui/app.rs). -/
structure ColorsConfig where
  icon : Option AnsiColor
  text : Option AnsiColor
  background : Option AnsiColor
deriving Repr

/-- Style flags of a segment (field as accessed in src/ui/app.rs). -/
structure StylesConfig where
  text_bold : Bool
deriving Repr

/-- Per-segment configuration: identity, enabled flag, icons, base colors,
boldness, and the open string-keyed option map (serde_json values). -/
structure SegmentConfig where
  id : SegmentId
  enabled : Bool
  icon : IconConfig
  colors : ColorsConfig
  styles : StylesConfig
  options : List (String × Json)
deriving Repr

inductive StyleMode where
  | Plain
  | NerdFont
  | Powerline
deriving DecidableEq, Repr

structure StyleConfig where
  mode : StyleMode
deriving Repr

/-- The configuration snapshot: theme name, global style, ordered segments. -/
structure Config where
  theme : String
  style : StyleConfig
  segments : List SegmentConfig
deriving Repr

/-- config.segments.iter().find(|s| s.id == segment_id) -/
def find_segment (config : Config) (segment_id : SegmentId) : Option SegmentConfig :=
  config.segments.find? (fun s => s.id == segment_id)

/-- get_thresholds_for_segment (threshold_utils.rs:21-38), as a pure function
of the result of get_cached_config.  Thresholds default to 60 / 80 when the
option is absent or as_u64 fails; the u64 value is then cast to f64 (here: a
rational). -/
def get_thresholds_for_segment (cfgRes : Option Config) (segment_id : SegmentId) :
    Option (ℚ × ℚ) :=
  cfgRes.bind fun config =>
  (find_segment config segment_id).map fun segment_config =>
    let warning_threshold : ℚ :=
      (((segment_config.options.lookup "warning_threshold").bind Json.as_u64).getD 60 : Nat)
    let critical_threshold : ℚ :=
      (((segment_config.options.lookup "critical_threshold").bind Json.as_u64).getD 80 : Nat)
    (warning_threshold, critical_threshold)

/-- The color-option parser used inside get_color_for_utilization
(threshold_utils.rs:52-60 and 66-74): `c256` is tried first, then `c16`;
any other shape (including an r,g,b triple) yields no override.
The `as u8` casts are the mod-256 truncations. -/
def parse_color_option (v : Option Json) : Option AnsiColor :=
  v.bind fun v =>
    match (v.getKey "c256").bind Json.as_u64 with
    | some c256 => some (AnsiColor.Color256 (Fin.ofNat c256))
    | none =>
      match (v.getKey "c16").bind Json.as_u64 with
      | some c16 => some (AnsiColor.Color16 (Fin.ofNat c16))
      | none => none

/-- get_color_for_utilization (threshold_utils.rs:41-79), as a pure function
of the cached-config result.  `utilization >= t` is `t ≤ utilization`. -/
def get_color_for_utilization (cfgRes : Option Config) (segment_id : SegmentId)
    (utilization : ℚ) : Option AnsiColor :=
  cfgRes.bind fun config =>
  (find_segment config segment_id).bind fun segment_config =>
  (get_thresholds_for_segment cfgRes segment_id).bind fun wc =>
    if wc.2 ≤ utilization then
      parse_color_option (segment_config.options.lookup "critical_color")
    else if wc.1 ≤ utilization then
      parse_color_option (segment_config.options.lookup "warning_color")
    else
      none

/-- should_be_bold (threshold_utils.rs:82-104), as a pure function of the
cached-config result. -/
def should_be_bold (cfgRes : Option Config) (segment_id : SegmentId)
    (utilization : ℚ) : Option Bool :=
  cfgRes.bind fun config =>
  (find_segment config segment_id).bind fun segment_config =>
  (get_thresholds_for_segment cfgRes segment_id).bind fun wc =>
    if wc.2 ≤ utilization then
      (segment_config.options.lookup "critical_bold").bind Json.as_bool
    else if wc.1 ≤ utilization then
      (segment_config.options.lookup "warning_bold").bind Json.as_bool
    else
      none

/-- Claim C2: for every segment configuration and every utilization u with
u >= critical_threshold, both get_color_for_utilization and should_be_bold take
the critical branch: the color result is exactly the parse of the
critical_color option and the bold result exactly the as_bool of the
critical_bold option - expressions in which the warning options do not occur -
even when u also reaches warning_threshold. -/
theorem critical_dominates_warning (cfg : Config) (segment_id : SegmentId)
    (sc : SegmentConfig) (u w c : ℚ)
    (hfind : find_segment cfg segment_id = some sc)
    (ht : get_thresholds_for_segment (some cfg) segment_id = some (w, c))
    (hc : c ≤ u) :
    get_color_for_utilization (some cfg) segment_id u
      = parse_color_option (sc.options.lookup "critical_color")
    ∧ should_be_bold (some cfg) segment_id u
      = (sc.options.lookup "critical_bold").bind Json.as_bool := by
  constructor <;>
    simp [get_color_for_utilization, should_be_bold, hfind, ht, hc]

/-- Claim C3: for every utilization u ≥ critical_threshold, if the
critical_color (resp. critical_bold) option is absent or malformed - i.e. its
lookup-and-parse yields none - then the resolver returns none for that axis;
there is no fall-through to the warning options. -/
theorem critical_absent_no_fallthrough (cfg : Config) (segment_id : SegmentId)
    (sc : SegmentConfig) (u w c : ℚ)
    (hfind : find_segment cfg segment_id = some sc)
    (ht : get_thresholds_for_segment (some cfg) segment_id = some (w, c))
    (hc : c ≤ u)
    (hcol : parse_color_option (sc.options.lookup "critical_color") = none)
    (hbold : (sc.options.lookup "critical_bold").bind Json.as_bool = none) :
    get_color_for_utilization (some cfg) segment_id u = none
    ∧ should_be_bold (some cfg) segment_id u = none := by
  constructor <;>
    simp [get_color_for_utilization, should_be_bold, hfind, ht, hc, hcol, hbold]

/-! Concrete configurations used as witnesses. -/

def iconEx : IconConfig := { plain := ">", nerd_font := ">" }

def colorsEx : ColorsConfig := { icon := none, text := none, background := none }

def stylesEx : StylesConfig := { text_bold := false }

def mkSeg (sid : SegmentId) (opts : List (String × Json)) : SegmentConfig :=
  { id := sid, enabled := true, icon := iconEx, colors := colorsEx,
    styles := stylesEx, options := opts }

def mkCfg (segs : List SegmentConfig) : Config :=
  { theme := "default", style := { mode := StyleMode.NerdFont }, segments := segs }

/-- Usage segment with default thresholds, both critical and warning options. -/
def segC2 : SegmentConfig :=
  mkSeg SegmentId.Usage
    [("critical_color", Json.obj [("c256", Json.num (JNum.uint 196))]),
     ("critical_bold", Json.bool true),
     ("warning_color", Json.obj [("c16", Json.num (JNum.uint 11))]),
     ("warning_bold", Json.bool false)]

def cfgC2 : Config := mkCfg [segC2]

theorem critical_dominates_warning_witness :
    get_color_for_utilization (some cfgC2) SegmentId.Usage 85
      = some (AnsiColor.Color256 196)
    ∧ should_be_bold (some cfgC2) SegmentId.Usage 85 = some true := by
  have h := critical_dominates_warning cfgC2 SegmentId.Usage segC2 85 60 80
    (by rfl) (by decide) (by norm_num)
  exact ⟨h.1.trans (by rfl), h.2.trans (by rfl)⟩

/-- Usage segment where both warning options are present and well-formed but
the critical options are absent. -/
def segC3 : SegmentConfig :=
  mkSeg SegmentId.Usage
    [("warning_color", Json.obj [("c16", Json.num (JNum.uint 11))]),
     ("warning_bold", Json.bool true)]

def cfgC3 : Config := mkCfg [segC3]

theorem critical_absent_no_fallthrough_witness :
    get_color_for_utilization (some cfgC3) SegmentId.Usage 85 = none
    ∧ should_be_bold (some cfgC3) SegmentId.Usage 85 = none := by
  have h := critical_absent_no_fallthrough cfgC3 SegmentId.Usage segC3 85 60 80
    (by rfl) (by decide) (by norm_num) (by rfl) (by rfl)
  exact h

/-- Usage segment with inverted thresholds: warning 80, critical 60. -/
def segC5 : SegmentConfig :=
  mkSeg SegmentId.Usage
    [("warning_threshold", Json.num (JNum.uint 80)),
     ("critical_threshold", Json.num (JNum.uint 60)),
     ("critical_color", Json.obj [("c16", Json.num (JNum.uint 1))]),
     ("critical_bold", Json.bool true)]

def cfgC5 : Config := mkCfg [segC5]

/-- Claim C5, counterexample: the claim quantifies over every segment
configuration, but with an inverted configuration (warning_threshold 80,
critical_threshold 60) the utilization 70 is strictly below the warning
threshold and the resolver nevertheless returns the critical overrides,
because the code tests the critical threshold first. -/
theorem below_warning_counterexample :
    get_thresholds_for_segment (some cfgC5) SegmentId.Usage = some (80, 60)
    ∧ (70 : ℚ) < 80
    ∧ get_color_for_utilization (some cfgC5) SegmentId.Usage 70
        = some (AnsiColor.Color16 1)
    ∧ should_be_bold (some cfgC5) SegmentId.Usage 70 = some true := by
  refine ⟨by decide, by norm_num, by decide, by decide⟩

/-- Claim C5 as amended: for every segment configuration and every utilization
u strictly below both the warning threshold and the critical threshold, the
resolver returns no override on either axis, regardless of the configured
warning/critical color and bold options. -/
theorem below_both_thresholds_no_override (cfg : Config) (segment_id : SegmentId)
    (u w c : ℚ)
    (ht : get_thresholds_for_segment (some cfg) segment_id = some (w, c))
    (hw : u < w) (hc : u < c) :
    get_color_for_utilization (some cfg) segment_id u = none
    ∧ should_be_bold (some cfg) segment_id u = none := by
  cases hfind : find_segment cfg segment_id with
  | none =>
    constructor <;> simp [get_color_for_utilization, should_be_bold, hfind]
  | some sc =>
    constructor <;>
      simp [get_color_for_utilization, should_be_bold, hfind, ht,
        not_le.mpr hw, not_le.mpr hc]

theorem below_both_thresholds_no_override_witness :
    get_color_for_utilization (some cfgC2) SegmentId.Usage 30 = none
    ∧ should_be_bold (some cfgC2) SegmentId.Usage 30 = none :=
  below_both_thresholds_no_override cfgC2 SegmentId.Usage 30 60 80
    (by decide) (by norm_num) (by norm_num)

/-- Claim C7: when the warning_threshold option is absent from the option map
or is not an unsigned-integer JSON number, the effective warning threshold is
60, and likewise the critical threshold defaults to 80; threshold resolution
then proceeds with exactly these defaults. -/
theorem thresholds_default_when_absent_or_malformed (cfg : Config)
    (segment_id : SegmentId) (sc : SegmentConfig)
    (hfind : find_segment cfg segment_id = some sc)
    (hw : (sc.options.lookup "warning_threshold").bind Json.as_u64 = none)
    (hc : (sc.options.lookup "critical_threshold").bind Json.as_u64 = none) :
    get_thresholds_for_segment (some cfg) segment_id = some (60, 80)
    ∧ (∀ u : ℚ, get_color_for_utilization (some cfg) segment_id u =
        if 80 ≤ u then parse_color_option (sc.options.lookup "critical_color")
        else if 60 ≤ u then parse_color_option (sc.options.lookup "warning_color")
        else none)
    ∧ (∀ u : ℚ, should_be_bold (some cfg) segment_id u =
        if 80 ≤ u then (sc.options.lookup "critical_bold").bind Json.as_bool
        else if 60 ≤ u then (sc.options.lookup "warning_bold").bind Json.as_bool
        else none) := by
  have ht : get_thresholds_for_segment (some cfg) segment_id = some (60, 80) := by
    simp [get_thresholds_for_segment, hfind, hw, hc]
  refine ⟨ht, fun u => ?_, fun u => ?_⟩ <;>
    simp [get_color_for_utilization, should_be_bold, hfind, ht]

/-- Usage5Hour segment: warning_threshold malformed (a string), critical
threshold absent, colors and bold options present. -/
def segC7 : SegmentConfig :=
  mkSeg SegmentId.Usage5Hour
    [("warning_threshold", Json.str "high"),
     ("critical_color", Json.obj [("c256", Json.num (JNum.uint 196))]),
     ("warning_color", Json.obj [("c16", Json.num (JNum.uint 11))])]

def cfgC7 : Config := mkCfg [segC7]

theorem thresholds_default_witness :
    get_thresholds_for_segment (some cfgC7) SegmentId.Usage5Hour = some (60, 80)
    ∧ get_color_for_utilization (some cfgC7) SegmentId.Usage5Hour 85
        = some (AnsiColor.Color256 196)
    ∧ get_color_for_utilization (some cfgC7) SegmentId.Usage5Hour 70
        = some (AnsiColor.Color16 11)
    ∧ get_color_for_utilization (some cfgC7) SegmentId.Usage5Hour 30 = none := by
  have h := thresholds_default_when_absent_or_malformed cfgC7 SegmentId.Usage5Hour
    segC7 (by rfl) (by rfl) (by rfl)
  refine ⟨h.1, ?_, ?_, ?_⟩ <;> rw [h.2.1] <;> norm_num <;> rfl

/-! Color model (src/core/segments/color_utils.rs).  JSON serialization is
modelled at the value level: serde_json's to_string / from_str pair is a
bijection between values and their compact renderings, so round-trip claims
are settled on values. -/

/-- serialize_ansi_color_to_json (color_utils.rs:5-17), at the JSON value
level: a small object with exactly one of the keys c256, c16, or the
triple r,g,b. -/
def serialize_ansi_color_to_json : AnsiColor → Json
  | .Color256 c256 => .obj [("c256", .num (.uint c256.val))]
  | .Color16 c16 => .obj [("c16", .num (.uint c16.val))]
  | .Rgb r g b =>
      .obj [("r", .num (.uint r.val)), ("g", .num (.uint g.val)),
            ("b", .num (.uint b.val))]

/-- A u64 value accepted as a u8 by serde field deserialization. -/
def toU8 (o : Option Nat) : Option (Fin 256) :=
  o.bind fun n => if h : n < 256 then some ⟨n, h⟩ else none

/-- Modelled from the spec: the AnsiColor serde deserializer lives in
crate::config, which is not among the sources; per the spec (sections 3, 4.1
and 6), deserialization accepts exactly one of the three shapes
`c16` / `c256` / `r,g,b` with u8 payloads and yields none on every
unknown shape. -/
def deserialize_ansi_color (v : Json) : Option AnsiColor :=
  match toU8 ((v.getKey "c16").bind Json.as_u64) with
  | some c16 => some (.Color16 c16)
  | none =>
    match toU8 ((v.getKey "c256").bind Json.as_u64) with
    | some c256 => some (.Color256 c256)
    | none =>
      match toU8 ((v.getKey "r").bind Json.as_u64),
            toU8 ((v.getKey "g").bind Json.as_u64),
            toU8 ((v.getKey "b").bind Json.as_u64) with
      | some r, some g, some b => some (.Rgb r g b)
      | _, _, _ => none

/-- Claim C4, counterexample: a critical_color option stored as the serialized
RGB triple is NOT recovered by the color-option parser used in the resolver
(threshold_utils.rs:52-60 only looks for the c256 and c16 keys): at
utilization 85 with default thresholds the resolver yields no override instead
of the stored RGB color. -/
theorem color_roundtrip_counterexample :
    parse_color_option (some (serialize_ansi_color_to_json (AnsiColor.Rgb 10 20 30)))
      = none
    ∧ get_color_for_utilization
        (some (mkCfg [mkSeg SegmentId.Usage5Hour
          [("critical_color", serialize_ansi_color_to_json (AnsiColor.Rgb 10 20 30))]]))
        SegmentId.Usage5Hour 85 = none
    ∧ (none : Option AnsiColor) ≠ some (AnsiColor.Rgb 10 20 30) := by
  refine ⟨by rfl, by decide, by decide⟩

/-- Claim C4 as amended: deserialization inverts serialization for every
constructible Color value (all three shapes), and the color-option parser used
in the resolver recovers serialized c16 and c256 values; a serialized RGB
triple, however, is not recovered by that parser - it yields no override. -/
theorem color_roundtrip_amended :
    (∀ color : AnsiColor,
      deserialize_ansi_color (serialize_ansi_color_to_json color) = some color)
    ∧ (∀ c16 : Fin 256,
        parse_color_option (some (serialize_ansi_color_to_json (AnsiColor.Color16 c16)))
          = some (AnsiColor.Color16 c16))
    ∧ (∀ c256 : Fin 256,
        parse_color_option (some (serialize_ansi_color_to_json (AnsiColor.Color256 c256)))
          = some (AnsiColor.Color256 c256))
    ∧ (∀ r g b : Fin 256,
        parse_color_option (some (serialize_ansi_color_to_json (AnsiColor.Rgb r g b)))
          = none) := by
  refine ⟨fun color => ?_, fun c16 => ?_, fun c256 => ?_, fun r g b => ?_⟩
  · cases color <;>
      simp [serialize_ansi_color_to_json, deserialize_ansi_color, toU8,
        Json.getKey, Json.as_u64, List.lookup, Fin.is_lt]
  · simp [serialize_ansi_color_to_json, parse_color_option, Json.getKey,
      Json.as_u64, List.lookup, Fin.ofNat]
    exact Fin.ext (Nat.mod_eq_of_lt c16.is_lt)
  · simp [serialize_ansi_color_to_json, parse_color_option, Json.getKey,
      Json.as_u64, List.lookup, Fin.ofNat]
    exact Fin.ext (Nat.mod_eq_of_lt c256.is_lt)
  · rfl

/-- ratatui::style::Color, restricted to the constructors produced by the
embedded conversions. -/
inductive Color where
  | Black
  | Red
  | Green
  | Yellow
  | Blue
  | Magenta
  | Cyan
  | White
  | DarkGray
  | LightRed
  | LightGreen
  | LightYellow
  | LightBlue
  | LightMagenta
  | LightCyan
  | Gray
  | Indexed (i : Fin 256)
  | Rgb (r g b : Fin 256)
deriving DecidableEq, Repr

/-- c16_to_ratatui_color (color_utils.rs:21-41): fixed 16-entry table with a
White fallback for every other u8 value. -/
def c16_to_ratatui_color (c16 : Fin 256) : Color :=
  match c16.val with
  | 0 => Color.Black
  | 1 => Color.Red
  | 2 => Color.Green
  | 3 => Color.Yellow
  | 4 => Color.Blue
  | 5 => Color.Magenta
  | 6 => Color.Cyan
  | 7 => Color.White
  | 8 => Color.DarkGray
  | 9 => Color.LightRed
  | 10 => Color.LightGreen
  | 11 => Color.LightYellow
  | 12 => Color.LightBlue
  | 13 => Color.LightMagenta
  | 14 => Color.LightCyan
  | 15 => Color.Gray
  | _ => Color.White

/-- ansi_color_to_ratatui (color_utils.rs:45-51). -/
def ansi_color_to_ratatui : AnsiColor → Color
  | .Color16 c16 => c16_to_ratatui_color c16
  | .Color256 c256 => .Indexed c256
  | .Rgb r g b => .Rgb r g b

/-- The fixed 16-entry named palette of c16_to_ratatui_color, in table order. -/
def palette16 : List Color :=
  [Color.Black, Color.Red, Color.Green, Color.Yellow, Color.Blue,
   Color.Magenta, Color.Cyan, Color.White, Color.DarkGray, Color.LightRed,
   Color.LightGreen, Color.LightYellow, Color.LightBlue, Color.LightMagenta,
   Color.LightCyan, Color.Gray]

set_option maxRecDepth 8192 in
/-- Claim C8: c16_to_ratatui_color is total on u8: each input 0-15 maps to the
corresponding entry of the fixed named palette, every input outside 0-15 maps
to the safe default White, and ansi_color_to_ratatui therefore produces a
color for every constructible AnsiColor value. -/
theorem c16_conversion_total :
    (∀ i : Fin 256, c16_to_ratatui_color i = palette16.getD i.val Color.White)
    ∧ (∀ i : Fin 256, 16 ≤ i.val → c16_to_ratatui_color i = Color.White)
    ∧ (∀ c16 : Fin 256,
        ansi_color_to_ratatui (AnsiColor.Color16 c16) = c16_to_ratatui_color c16)
    ∧ (∀ c256 : Fin 256,
        ansi_color_to_ratatui (AnsiColor.Color256 c256) = Color.Indexed c256)
    ∧ (∀ r g b : Fin 256,
        ansi_color_to_ratatui (AnsiColor.Rgb r g b) = Color.Rgb r g b) := by
  refine ⟨by decide, by decide, fun _ => rfl, fun _ => rfl, fun _ _ _ => rfl⟩

theorem c16_conversion_total_witness :
    c16_to_ratatui_color 42 = Color.White
    ∧ c16_to_ratatui_color 3 = palette16.getD 3 Color.White :=
  ⟨c16_conversion_total.2.1 42 (by decide), c16_conversion_total.1 3⟩

/-! Greedy line wrapping: the panel-height loops of src/ui/app.rs and the
reference rule of spec section 4.5.  Item widths are abstracted as lists of
naturals (in the source they are string lengths of the concrete theme-marker
strings resp. help items), the content width is the `total_width - 2`
borderless width. -/

/-- Modelled from the spec: the reference greedy wrap rule of section 4.5.
Its implementation (StatusLineGenerator::generate_for_tui_preview in
crate::core) is not among the sources.  State: current line width, the
first-unit flag (a separator is charged for every unit but the first ever; a
unit is force-placed when it is the first being placed on the current line -
a unit that breaks the line immediately becomes the first entry of the new
line, so the flag is true only before any unit is placed), and the line count
so far. -/
def refWrapGo (sep maxW : Nat) : List Nat → Nat → Bool → Nat → Nat
  | [], _, _, count => count
  | w :: rest, cur, first, count =>
    if cur + (if first = true then 0 else sep) + w ≤ maxW ∨ first = true then
      refWrapGo sep maxW rest (cur + (if first = true then 0 else sep) + w) false count
    else
      refWrapGo sep maxW rest w false (count + 1)

/-- Line count of the reference greedy wrap; with zero units the single
(empty) current line is still counted, matching both panel computations. -/
def refLineCount (sep maxW : Nat) (ws : List Nat) : Nat :=
  refWrapGo sep maxW ws 0 true 1

/-- The wrapping loop of App::calculate_theme_selector_height
(src/ui/app.rs:254-289): per item, the separator is empty for index 0 and two
columns otherwise; an item is placed when it fits or the first-line flag is
still set (the flag is cleared only by a placement), otherwise a new line
starts holding the item without its separator. -/
def theme_selector_go (maxW : Nat) : List Nat → Nat → Nat → Bool → Nat → Nat
  | [], _, _, _, line_count => line_count
  | w :: rest, i, cur, first_line, line_count =>
    if cur + ((if i = 0 then 0 else 2) + w) ≤ maxW ∨ first_line = true then
      theme_selector_go maxW rest (i + 1) (cur + ((if i = 0 then 0 else 2) + w))
        false line_count
    else
      theme_selector_go maxW rest (i + 1) w first_line (line_count + 1)

def theme_selector_line_count (maxW : Nat) (ws : List Nat) : Nat :=
  theme_selector_go maxW ws 0 0 true 1

/-- The wrapping loop of App::calculate_help_height (src/ui/app.rs:291-354):
per item, a two-column separator is charged when the index is positive and the
current width is positive; when the item (plus separator) overflows, a new
line starts - with no exemption for an item that is first on its line. -/
def help_go (maxW : Nat) : List Nat → Nat → Nat → Nat → Nat
  | [], _, _, lines_needed => lines_needed
  | w :: rest, i, current_width, lines_needed =>
    if maxW < current_width + (w + (if 0 < i ∧ 0 < current_width then 2 else 0)) then
      help_go maxW rest (i + 1) w (lines_needed + 1)
    else
      help_go maxW rest (i + 1)
        ((if 0 < i ∧ 0 < current_width then current_width + 2 else current_width) + w)
        lines_needed

def help_line_count (maxW : Nat) (ws : List Nat) : Nat :=
  help_go maxW ws 0 0 1

/-- Claim C1, counterexample: with content width 3 and a single oversized item
of width 5, the reference rule and the theme-selector computation produce one
content line, but the help-legend computation produces two - it lacks the
first-on-line exemption, so a single oversized item yields an extra line. -/
theorem wrap_equivalence_counterexample :
    refLineCount 2 3 [5] = 1
    ∧ theme_selector_line_count 3 [5] = 1
    ∧ help_line_count 3 [5] = 2 := by
  refine ⟨rfl, rfl, rfl⟩

lemma theme_go_eq (maxW : Nat) :
    ∀ (ws : List Nat) (i cur count : Nat),
      theme_selector_go maxW ws (i + 1) cur false count
        = refWrapGo 2 maxW ws cur false count := by
  intro ws
  induction ws with
  | nil => intro i cur count; rfl
  | cons w rest ih =>
    intro i cur count
    simp only [theme_selector_go, refWrapGo, Nat.succ_ne_zero, if_neg,
      Bool.false_eq_true, or_false, if_false]
    by_cases h : cur + 2 + w ≤ maxW
    · rw [if_pos (by omega), if_pos h, ← Nat.add_assoc]
      exact ih (i + 1) (cur + 2 + w) count
    · rw [if_neg (by omega), if_neg h]
      exact ih (i + 1) w (count + 1)

lemma help_go_eq (maxW : Nat) :
    ∀ (ws : List Nat) (i cur lines : Nat),
      (∀ w ∈ ws, 0 < w) → 0 < cur →
      help_go maxW ws (i + 1) cur lines = refWrapGo 2 maxW ws cur false lines := by
  intro ws
  induction ws with
  | nil => intro i cur lines _ _; rfl
  | cons w rest ih =>
    intro i cur lines hws hcur
    have hw : 0 < w := hws w (List.mem_cons_self w rest)
    have hrest : ∀ x ∈ rest, 0 < x := fun x hx => hws x (List.mem_cons_of_mem _ hx)
    have hsep : 0 < i + 1 ∧ 0 < cur := ⟨Nat.succ_pos i, hcur⟩
    simp only [help_go, refWrapGo, if_pos hsep, Bool.false_eq_true, or_false,
      if_false]
    by_cases h : cur + 2 + w ≤ maxW
    · rw [if_neg (by omega), if_pos h]
      exact ih (i + 1) (cur + 2 + w) lines hrest (by omega)
    · rw [if_pos (by omega), if_neg h]
      exact ih (i + 1) w (lines + 1) hrest hw

/-- Claim C1 as amended: the theme-name picker computation yields the same
line count as the reference greedy rule of section 4.5 for every item list
and every content width; the help-key legend computation yields the same line
count for every list of positive-width items whose first item fits within the
content width (when the first item alone exceeds the width, the help
computation counts one line more than the reference rule, as the
counterexample shows). -/
theorem wrap_equivalence_amended :
    (∀ maxW ws, theme_selector_line_count maxW ws = refLineCount 2 maxW ws)
    ∧ (∀ maxW w0 ws, (∀ w ∈ w0 :: ws, 0 < w) → w0 ≤ maxW →
        help_line_count maxW (w0 :: ws) = refLineCount 2 maxW (w0 :: ws)) := by
  constructor
  · intro maxW ws
    cases ws with
    | nil => rfl
    | cons w rest =>
      have h := theme_go_eq maxW rest 0 w 1
      simp only [Nat.zero_add] at h
      simp [theme_selector_line_count, refLineCount, theme_selector_go,
        refWrapGo, h]
  · intro maxW w0 ws hpos hfit
    have hw0 : 0 < w0 := hpos w0 (List.mem_cons_self w0 ws)
    have hrest : ∀ x ∈ ws, 0 < x := fun x hx => hpos x (List.mem_cons_of_mem _ hx)
    have hnlt : ¬ maxW < w0 := Nat.not_lt.mpr hfit
    have h := help_go_eq maxW ws 0 w0 1 hrest hw0
    simp only [Nat.zero_add] at h
    simp [help_line_count, refLineCount, help_go, refWrapGo, hnlt, h]

theorem wrap_equivalence_amended_witness :
    theme_selector_line_count 10 [4, 5] = refLineCount 2 10 [4, 5]
    ∧ help_line_count 10 [4, 5] = refLineCount 2 10 [4, 5]
    ∧ refLineCount 2 10 [4, 5] = 2 :=
  ⟨wrap_equivalence_amended.1 10 [4, 5],
   wrap_equivalence_amended.2 10 4 [5] (by decide) (by decide), rfl⟩

/-! The process-wide config cache (threshold_utils.rs:6-18, 106-114) and the
private per-segment resolvers of the usage segments
(usage_5hour.rs:14-65, usage_7day.rs:14-102). -/

/-- State of the CONFIG_CACHE static: `cell` is the OnceCell content (none =
uninitialized; some m = the Mutex holding m) and `loads` counts the
backing-store load attempts (Config::load calls) performed so far. -/
structure CacheState where
  cell : Option (Option Config)
  loads : Nat
deriving Repr

/-- get_cached_config (threshold_utils.rs:9-18) as a state transformer.  The
backing store is modelled as the sequence of results successive
Config::load().ok() calls would return (store n = result of the n-th load).
get_or_init makes the OnceCell layer unobservable beyond its content; lock
poisoning cannot occur in the single-threaded model, so lock() succeeds. -/
def get_cached_config (store : Nat → Option Config) (s : CacheState) :
    Option Config × CacheState :=
  match s.cell.getD none with
  | none => (store s.loads, { cell := some (store s.loads), loads := s.loads + 1 })
  | some cfg => (some cfg, { cell := some (some cfg), loads := s.loads })

/-- invalidate_config_cache (threshold_utils.rs:108-114): clears the Mutex
content when the OnceCell is initialized, does nothing otherwise. -/
def invalidate_config_cache (s : CacheState) : CacheState :=
  match s.cell with
  | none => s
  | some _ => { s with cell := some none }

/-- The private color resolver duplicated in Usage5HourSegment and
Usage7DaySegment (usage_5hour.rs:14-65, usage_7day.rs:14-65), as a pure
function of the Config::load().ok() result; the two methods are textually
identical up to the segment id.  Its inline option parsing coincides with
parse_color_option (c256 tried before c16, nothing else accepted). -/
def usage_private_color (cfgRes : Option Config) (segment_id : SegmentId)
    (utilization : ℚ) : Option AnsiColor :=
  cfgRes.bind fun config =>
  (find_segment config segment_id).bind fun segment_config =>
    let warning_threshold : ℚ :=
      (((segment_config.options.lookup "warning_threshold").bind Json.as_u64).getD 60 : Nat)
    let critical_threshold : ℚ :=
      (((segment_config.options.lookup "critical_threshold").bind Json.as_u64).getD 80 : Nat)
    if critical_threshold ≤ utilization then
      parse_color_option (segment_config.options.lookup "critical_color")
    else if warning_threshold ≤ utilization then
      parse_color_option (segment_config.options.lookup "warning_color")
    else
      none

/-- The private boldness resolver of Usage7DaySegment
(usage_7day.rs:67-102), as a pure function of the Config::load().ok()
result. -/
def usage_private_bold (cfgRes : Option Config) (segment_id : SegmentId)
    (utilization : ℚ) : Option Bool :=
  cfgRes.bind fun config =>
  (find_segment config segment_id).bind fun segment_config =>
    let warning_threshold : ℚ :=
      (((segment_config.options.lookup "warning_threshold").bind Json.as_u64).getD 60 : Nat)
    let critical_threshold : ℚ :=
      (((segment_config.options.lookup "critical_threshold").bind Json.as_u64).getD 80 : Nat)
    if critical_threshold ≤ utilization then
      (segment_config.options.lookup "critical_bold").bind Json.as_bool
    else if warning_threshold ≤ utilization then
      (segment_config.options.lookup "warning_bold").bind Json.as_bool
    else
      none

/-- Usage5HourSegment::get_color_for_utilization (usage_5hour.rs:14-65): it
calls Config::load() directly - one backing-store load per invocation, never
consulting the shared cache. -/
def usage5hour_get_color_for_utilization (store : Nat → Option Config)
    (utilization : ℚ) (s : CacheState) : Option AnsiColor × CacheState :=
  (usage_private_color (store s.loads) SegmentId.Usage5Hour utilization,
   { s with loads := s.loads + 1 })

/-- Usage7DaySegment::get_color_for_utilization (usage_7day.rs:14-65): also a
direct Config::load() per invocation. -/
def usage7day_get_color_for_utilization (store : Nat → Option Config)
    (utilization : ℚ) (s : CacheState) : Option AnsiColor × CacheState :=
  (usage_private_color (store s.loads) SegmentId.Usage7Day utilization,
   { s with loads := s.loads + 1 })

/-- Usage7DaySegment::should_be_bold (usage_7day.rs:67-102): also a direct
Config::load() per invocation. -/
def usage7day_should_be_bold (store : Nat → Option Config)
    (utilization : ℚ) (s : CacheState) : Option Bool × CacheState :=
  (usage_private_bold (store s.loads) SegmentId.Usage7Day utilization,
   { s with loads := s.loads + 1 })

/-- Claim C6, counterexample: (i) after a first FAILED load attempt the cache
mutex still holds none, so the very next get_cached_config call performs a
second backing-store load (loads goes 0, 1, 2 with a permanently failing
store); (ii) even after a successful cached load, one 5-hour per-segment
resolution performs a further backing-store load, because
Usage5HourSegment::get_color_for_utilization calls Config::load() directly
instead of reading through the cache. -/
theorem config_cache_counterexample :
    (get_cached_config (fun _ => none) { cell := none, loads := 0 }).2.loads = 1
    ∧ (get_cached_config (fun _ => none)
        (get_cached_config (fun _ => none) { cell := none, loads := 0 }).2).2.loads = 2
    ∧ (usage5hour_get_color_for_utilization (fun _ => some cfgC2) 85
        (get_cached_config (fun _ => some cfgC2) { cell := none, loads := 0 }).2).2.loads
        = 2 := by
  refine ⟨rfl, rfl, rfl⟩

/-- Claim C6 as amended: the shared cache returns its content without any
backing-store load whenever it holds a successfully loaded configuration (so
after one successful load, repeated shared-resolver calls load nothing more
until invalidate_config_cache); but a load ATTEMPT happens on every call while
the cache is uninitialized or holds a failure, and the private resolvers of
the 5-hour and 7-day usage segments perform one backing-store load on every
invocation, bypassing the cache entirely. -/
theorem config_cache_amended :
    (∀ store s cfg, s.cell = some (some cfg) →
      (get_cached_config store s).1 = some cfg
      ∧ (get_cached_config store s).2 = s)
    ∧ (∀ store s, (s.cell = none ∨ s.cell = some none) →
      (get_cached_config store s).2.loads = s.loads + 1
      ∧ (get_cached_config store s).2.cell = some (store s.loads))
    ∧ (∀ s, invalidate_config_cache s = { s with cell := s.cell.map (fun _ => none) })
    ∧ (∀ store u s,
        (usage5hour_get_color_for_utilization store u s).2.loads = s.loads + 1)
    ∧ (∀ store u s,
        (usage7day_get_color_for_utilization store u s).2.loads = s.loads + 1)
    ∧ (∀ store u s,
        (usage7day_should_be_bold store u s).2.loads = s.loads + 1) := by
  refine ⟨?_, ?_, ?_, fun _ _ _ => rfl, fun _ _ _ => rfl, fun _ _ _ => rfl⟩
  · intro store s cfg hcell
    obtain ⟨cell, loads⟩ := s
    cases hcell
    exact ⟨rfl, rfl⟩
  · intro store s hcell
    obtain ⟨cell, loads⟩ := s
    rcases hcell with h | h <;> cases h <;> exact ⟨rfl, rfl⟩
  · intro s
    obtain ⟨cell, loads⟩ := s
    cases cell <;> rfl

theorem config_cache_amended_witness :
    (get_cached_config (fun _ => some cfgC2)
        { cell := some (some cfgC2), loads := 1 }).1 = some cfgC2
    ∧ (get_cached_config (fun _ => some cfgC2)
        { cell := some (some cfgC2), loads := 1 }).2
        = { cell := some (some cfgC2), loads := 1 }
    ∧ (get_cached_config (fun _ => some cfgC2) { cell := none, loads := 0 }).2.cell
        = some (some cfgC2) := by
  have h := config_cache_amended
  exact ⟨(h.1 _ _ cfgC2 rfl).1, (h.1 _ _ cfgC2 rfl).2,
    ((h.2.1 (fun _ => some cfgC2) { cell := none, loads := 0 } (Or.inl rfl)).2).trans rfl⟩

/-! The collect operations of the 5-hour and 7-day usage segments
(usage_5hour.rs:69-109, usage_7day.rs:106-142).  The shared usage cache file
and formatting helpers live in crate::core::segments::usage, which is not
among the sources; the cache record is passed in as the collaborator result
and the two formatting helpers as function parameters.  Utilization is a
rational; its decimal rendering stands in for f64 to_string. -/

/-- UsageSegment shared cache record, fields as read by the two collects. -/
structure UsageCache where
  five_hour_utilization : ℚ
  five_hour_resets_at : Option String
  seven_day_utilization : ℚ
  seven_day_resets_at : Option String

/-- SegmentData (segment collaborator output): primary and secondary text and
the string-to-string metadata map (HashMap modelled as an association list
with insert-replaces semantics). -/
structure SegmentData where
  primary : String
  secondary : String
  metadata : List (String × String)

/-- HashMap::insert - replaces the value of an existing key, appends fresh
keys (iteration order is irrelevant to every claim settled here). -/
def hashmap_insert {β : Type} (m : List (String × β)) (k : String) (v : β) :
    List (String × β) :=
  if m.any (fun p => p.1 == k) then
    m.map (fun p => if p.1 == k then (k, v) else p)
  else
    m ++ [(k, v)]

/-- The compact rendering serde_json to_string produces for the serialized
color objects (object keys in sorted order, serde_json's default map). -/
def ansi_color_json_string : AnsiColor → String
  | .Color256 c256 => "\x7b\"c256\":" ++ toString c256.val ++ "\x7d"
  | .Color16 c16 => "\x7b\"c16\":" ++ toString c16.val ++ "\x7d"
  | .Rgb r g b =>
      "\x7b\"b\":" ++ toString b.val ++ ",\"g\":" ++ toString g.val
        ++ ",\"r\":" ++ toString r.val ++ "\x7d"

/-- f64::round followed by the saturating `as u8` cast. -/
def percent_u8 (q : ℚ) : Nat := (max 0 (min 255 (round q))).toNat

/-- Usage5HourSegment::collect (usage_5hour.rs:69-109): builds primary and
secondary text, inserts dynamic_icon and five_hour_utilization metadata, and
inserts text_color_override when its private color resolver returns a color.
No boldness key is ever produced. -/
def usage5hour_collect (cfgRes : Option Config) (cache : Option UsageCache)
    (format_5hour_reset_time : Option String → String)
    (get_circle_icon : ℚ → String) : Option SegmentData :=
  cache.bind fun cache =>
    let five_hour_util := cache.five_hour_utilization
    let reset_time := format_5hour_reset_time cache.five_hour_resets_at
    let dynamic_icon := get_circle_icon (five_hour_util / 100)
    let primary := toString (percent_u8 five_hour_util) ++ "%"
    let secondary := "→ " ++ reset_time
    let metadata :=
      hashmap_insert (hashmap_insert [] "dynamic_icon" dynamic_icon)
        "five_hour_utilization" (toString five_hour_util)
    let metadata :=
      match usage_private_color cfgRes SegmentId.Usage5Hour five_hour_util with
      | some color =>
          hashmap_insert metadata "text_color_override" (ansi_color_json_string color)
      | none => metadata
    some { primary := primary, secondary := secondary, metadata := metadata }

/-- Usage7DaySegment::collect (usage_7day.rs:106-142): like the 5-hour
collect (its secondary prefix is the mojibake arrow of the source), but it
additionally inserts text_bold_override (the bool rendered as text) whenever
its private should_be_bold resolver returns a value. -/
def usage7day_collect (cfgRes : Option Config) (cache : Option UsageCache)
    (format_7day_reset_time : Option String → String)
    (get_circle_icon : ℚ → String) : Option SegmentData :=
  cache.bind fun cache =>
    let seven_day_util := cache.seven_day_utilization
    let reset_time := format_7day_reset_time cache.seven_day_resets_at
    let dynamic_icon := get_circle_icon (seven_day_util / 100)
    let primary := toString (percent_u8 seven_day_util) ++ "%"
    let secondary := "â†’ " ++ reset_time
    let metadata :=
      hashmap_insert (hashmap_insert [] "dynamic_icon" dynamic_icon)
        "seven_day_utilization" (toString seven_day_util)
    let metadata :=
      match usage_private_color cfgRes SegmentId.Usage7Day seven_day_util with
      | some color =>
          hashmap_insert metadata "text_color_override" (ansi_color_json_string color)
      | none => metadata
    let metadata :=
      match usage_private_bold cfgRes SegmentId.Usage7Day seven_day_util with
      | some should_bold =>
          hashmap_insert metadata "text_bold_override" (toString should_bold)
      | none => metadata
    some { primary := primary, secondary := secondary, metadata := metadata }

/-- Claim C10: a 5-hour collect result never carries a text_bold_override
metadata key, for every usage-cache input and configuration (it carries
text_color_override exactly when its color resolver returns a color), while a
7-day collect result carries text_bold_override (rendered bool) whenever its
should_be_bold resolver returns a value. -/
theorem usage_bold_metadata (cfgRes : Option Config) (co : Option UsageCache)
    (cache : UsageCache) (fmt5 fmt7 : Option String → String)
    (icon : ℚ → String) :
    ((usage5hour_collect cfgRes co fmt5 icon).bind
        (fun d => d.metadata.lookup "text_bold_override") = none)
    ∧ (∀ c, usage_private_color cfgRes SegmentId.Usage5Hour
          cache.five_hour_utilization = some c →
        (usage5hour_collect cfgRes (some cache) fmt5 icon).bind
          (fun d => d.metadata.lookup "text_color_override")
          = some (ansi_color_json_string c))
    ∧ (∀ b, usage_private_bold cfgRes SegmentId.Usage7Day
          cache.seven_day_utilization = some b →
        (usage7day_collect cfgRes (some cache) fmt7 icon).bind
          (fun d => d.metadata.lookup "text_bold_override")
          = some (toString b)) := by
  refine ⟨?_, ?_, ?_⟩
  · cases co with
    | none => rfl
    | some cache' =>
      cases hc : usage_private_color cfgRes SegmentId.Usage5Hour
          cache'.five_hour_utilization <;>
        simp [usage5hour_collect, hashmap_insert, List.lookup, hc]
  · intro c hc
    simp [usage5hour_collect, hashmap_insert, List.lookup, hc]
  · intro b hb
    cases hc : usage_private_color cfgRes SegmentId.Usage7Day
        cache.seven_day_utilization <;>
      simp [usage7day_collect, hashmap_insert, List.lookup, hc, hb]

def cacheEx : UsageCache :=
  { five_hour_utilization := 85, five_hour_resets_at := none,
    seven_day_utilization := 85, seven_day_resets_at := none }

def cfgC10 : Config :=
  mkCfg
    [mkSeg SegmentId.Usage7Day
       [("critical_bold", Json.bool true),
        ("critical_color", Json.obj [("c256", Json.num (JNum.uint 208))])],
     mkSeg SegmentId.Usage5Hour
       [("critical_color", Json.obj [("c256", Json.num (JNum.uint 196))])]]

theorem usage_bold_metadata_witness :
    ((usage5hour_collect (some cfgC10) (some cacheEx) (fun _ => "3am")
        (fun _ => "o")).bind
      (fun d => d.metadata.lookup "text_bold_override") = none)
    ∧ ((usage5hour_collect (some cfgC10) (some cacheEx) (fun _ => "3am")
        (fun _ => "o")).bind
      (fun d => d.metadata.lookup "text_color_override")
        = some (ansi_color_json_string (AnsiColor.Color256 196)))
    ∧ ((usage7day_collect (some cfgC10) (some cacheEx) (fun _ => "3am")
        (fun _ => "o")).bind
      (fun d => d.metadata.lookup "text_bold_override") = some "true") := by
  have h := usage_bold_metadata (some cfgC10) (some cacheEx) cacheEx
    (fun _ => "3am") (fun _ => "3am") (fun _ => "o")
  have h7 := usage_bold_metadata (some cfgC10) (some cacheEx) cacheEx
    (fun _ => "3am") (fun _ => "3am") (fun _ => "o")
  exact ⟨h.1, h.2.1 (AnsiColor.Color256 196) (by decide),
    (h7.2.2 true (by decide)).trans rfl⟩

/-! The editor operations of src/ui/app.rs: toggle_current (531-743),
move_segment_up (839-847), move_segment_down (849-860).  The preview widget
is omitted from the state: update_preview reads the configuration and mutates
only the preview text, never any field modelled here; the color-picker and
icon-selector components are collapsed to their open flags, the only effect
toggle_current has on them. -/

inductive Panel where
  | SegmentList
  | Settings
deriving DecidableEq, Repr

inductive FieldSelection where
  | Enabled
  | Icon
  | IconColor
  | TextColor
  | BackgroundColor
  | TextStyle
  | WarningColor
  | CriticalColor
  | WarningThreshold
  | CriticalThreshold
  | WarningBold
  | CriticalBold
  | ShowSha
  | ShowDirtyCount
  | Options
deriving DecidableEq, Repr

structure App where
  config : Config
  selected_panel : Panel
  selected_field : FieldSelection
  selected_segment : Nat
  status_message : Option String
  color_picker_open : Bool
  icon_selector_open : Bool
deriving Repr

/-- The segment-name match of toggle_current (src/ui/app.rs:537-549). -/
def segment_display_name : SegmentId → String
  | .Model => "Model"
  | .Directory => "Directory"
  | .Git => "Git"
  | .ContextWindow => "Context Window"
  | .Usage => "Usage"
  | .Usage5Hour => "Usage (5-hour)"
  | .Usage7Day => "Usage (7-day)"
  | .Cost => "Cost"
  | .Session => "Session"
  | .OutputStyle => "Output Style"
  | .Update => "Update"

/-- The recurring pattern `if let Some(segment) =
self.config.segments.get_mut(self.selected_segment)`: apply a mutation and
produce a status message; out-of-range selection leaves the state unchanged. -/
def update_selected_segment (a : App) (f : SegmentConfig → SegmentConfig × String) :
    App :=
  match a.config.segments.get? a.selected_segment with
  | none => a
  | some segment =>
    let r := f segment
    { a with
      config := { a.config with
        segments := a.config.segments.set a.selected_segment r.1 },
      status_message := some r.2 }

/-- The enabled-flag flip shared by the SegmentList branch and the
Settings/Enabled branch of toggle_current. -/
def toggle_enabled_step (segment : SegmentConfig) : SegmentConfig × String :=
  let segment := { segment with enabled := !segment.enabled }
  (segment, segment_display_name segment.id ++ " segment "
    ++ (if segment.enabled then "enabled" else "disabled"))

/-- open_color_picker (src/ui/app.rs:752-763). -/
def open_color_picker (a : App) : App :=
  if a.selected_panel = Panel.Settings
      ∧ (a.selected_field = FieldSelection.IconColor
        ∨ a.selected_field = FieldSelection.TextColor
        ∨ a.selected_field = FieldSelection.BackgroundColor
        ∨ a.selected_field = FieldSelection.WarningColor
        ∨ a.selected_field = FieldSelection.CriticalColor) then
    { a with color_picker_open := true }
  else a

/-- open_icon_selector (src/ui/app.rs:764-769).  The selector captures the
current style mode internally; only its open flag is modelled. -/
def open_icon_selector (a : App) : App :=
  if a.selected_panel = Panel.Settings ∧ a.selected_field = FieldSelection.Icon then
    { a with icon_selector_open := true }
  else a

/-- toggle_current (src/ui/app.rs:531-743). -/
def toggle_current (a : App) : App :=
  match a.selected_panel with
  | Panel.SegmentList => update_selected_segment a toggle_enabled_step
  | Panel.Settings =>
    match a.selected_field with
    | FieldSelection.Enabled => update_selected_segment a toggle_enabled_step
    | FieldSelection.Icon => open_icon_selector a
    | FieldSelection.IconColor => open_color_picker a
    | FieldSelection.TextColor => open_color_picker a
    | FieldSelection.BackgroundColor => open_color_picker a
    | FieldSelection.WarningColor => open_color_picker a
    | FieldSelection.CriticalColor => open_color_picker a
    | FieldSelection.TextStyle =>
        update_selected_segment a fun segment =>
          let segment := { segment with
            styles := { segment.styles with text_bold := !segment.styles.text_bold } }
          (segment, "Text bold "
            ++ (if segment.styles.text_bold then "enabled" else "disabled"))
    | FieldSelection.WarningThreshold =>
        update_selected_segment a fun segment =>
          let current := ((segment.options.lookup "warning_threshold").bind
            Json.as_u64).getD 60
          let new_value : Nat :=
            if current < 50 then 50
            else if current = 50 then 60
            else if current = 60 then 70
            else if current = 70 then 80
            else 40
          let options := hashmap_insert segment.options "warning_threshold"
            (Json.num (JNum.uint new_value))
          ({ segment with options := options },
           "Warning threshold set to " ++ toString new_value ++ "%")
    | FieldSelection.CriticalThreshold =>
        update_selected_segment a fun segment =>
          let current := ((segment.options.lookup "critical_threshold").bind
            Json.as_u64).getD 80
          let new_value : Nat :=
            if current < 70 then 70
            else if current = 70 then 80
            else if current = 80 then 90
            else if current = 90 then 95
            else 60
          let options := hashmap_insert segment.options "critical_threshold"
            (Json.num (JNum.uint new_value))
          ({ segment with options := options },
           "Critical threshold set to " ++ toString new_value ++ "%")
    | FieldSelection.WarningBold =>
        update_selected_segment a fun segment =>
          let current := ((segment.options.lookup "warning_bold").bind
            Json.as_bool).getD false
          let new_value := !current
          let options := hashmap_insert segment.options "warning_bold"
            (Json.bool new_value)
          ({ segment with options := options },
           "Warning bold " ++ (if new_value then "enabled" else "disabled"))
    | FieldSelection.CriticalBold =>
        update_selected_segment a fun segment =>
          let current := ((segment.options.lookup "critical_bold").bind
            Json.as_bool).getD true
          let new_value := !current
          let options := hashmap_insert segment.options "critical_bold"
            (Json.bool new_value)
          ({ segment with options := options },
           "Critical bold " ++ (if new_value then "enabled" else "disabled"))
    | FieldSelection.ShowSha =>
        update_selected_segment a fun segment =>
          let current := ((segment.options.lookup "show_sha").bind
            Json.as_bool).getD false
          let new_value := !current
          let options := hashmap_insert segment.options "show_sha"
            (Json.bool new_value)
          ({ segment with options := options },
           "Show SHA " ++ (if new_value then "enabled" else "disabled"))
    | FieldSelection.ShowDirtyCount =>
        update_selected_segment a fun segment =>
          let current := ((segment.options.lookup "show_dirty_count").bind
            Json.as_bool).getD false
          let new_value := !current
          let options := hashmap_insert segment.options "show_dirty_count"
            (Json.bool new_value)
          ({ segment with options := options },
           "Show dirty count " ++ (if new_value then "enabled" else "disabled"))
    | FieldSelection.Options =>
        { a with status_message := some "Options editor not implemented yet" }

/-- Vec::swap(i, j): fails (models the panic) when an index is out of
bounds. -/
def listSwap {α : Type} (l : List α) (i j : Nat) : Option (List α) :=
  match l.get? i, l.get? j with
  | some x, some y => some ((l.set i y).set j x)
  | _, _ => none

def usize_size : Nat := 2 ^ 64

/-- `len - 1` on usize.  In a release build the subtraction wraps; in a debug
build it panics on len = 0, in which case the subsequent swap below is never
reached - under either semantics move_segment_down on an empty segment list
produces no next state (here: listSwap fails on the wrapped bound). -/
def usize_sub_one (n : Nat) : Nat := (n + usize_size - 1) % usize_size

/-- move_segment_up (src/ui/app.rs:839-847); none models a panic inside
Vec::swap. -/
def move_segment_up (a : App) : Option App :=
  if a.selected_panel = Panel.SegmentList ∧ 0 < a.selected_segment then
    (listSwap a.config.segments a.selected_segment (a.selected_segment - 1)).map
      fun segments =>
        { a with
          config := { a.config with segments := segments },
          selected_segment := a.selected_segment - 1,
          status_message := some "Moved segment up" }
  else some a

/-- move_segment_down (src/ui/app.rs:849-860); none models a panic inside
Vec::swap (or the debug-build underflow of len - 1 on an empty list). -/
def move_segment_down (a : App) : Option App :=
  if a.selected_panel = Panel.SegmentList
      ∧ a.selected_segment < usize_sub_one a.config.segments.length then
    (listSwap a.config.segments a.selected_segment (a.selected_segment + 1)).map
      fun segments =>
        { a with
          config := { a.config with segments := segments },
          selected_segment := a.selected_segment + 1,
          status_message := some "Moved segment down" }
  else some a

lemma cons_set_perm {α : Type} :
    ∀ (t : List α) (j : Nat) (x y : α), t.get? j = some y →
      (y :: t.set j x).Perm (x :: t) := by
  intro t
  induction t with
  | nil => intro j x y h; cases j <;> cases h
  | cons b t ih =>
    intro j x y h
    cases j with
    | zero =>
      cases h
      exact List.Perm.swap x b t
    | succ j =>
      exact ((List.Perm.swap b y (t.set j x)).trans
        (List.Perm.cons b (ih j x y h))).trans (List.Perm.swap x b t)

lemma set_set_perm {α : Type} :
    ∀ (l : List α) (i j : Nat) (x y : α), l.get? i = some x → l.get? j = some y →
      ((l.set i y).set j x).Perm l := by
  intro l
  induction l with
  | nil => intro i j x y hx hy; cases i <;> cases hx
  | cons a t ih =>
    intro i j x y hx hy
    cases i with
    | zero =>
      cases hx
      cases j with
      | zero => cases hy; exact List.Perm.refl _
      | succ j => exact cons_set_perm t j a y hy
    | succ i =>
      cases j with
      | zero =>
        cases hy
        exact cons_set_perm t i a x hx
      | succ j =>
        exact List.Perm.cons a (ih i j x y hx hy)

lemma listSwap_perm {α : Type} (l : List α) (i j : Nat) (l' : List α)
    (h : listSwap l i j = some l') : l'.Perm l := by
  unfold listSwap at h
  cases hx : l.get? i with
  | none => rw [hx] at h; cases h
  | some x =>
    cases hy : l.get? j with
    | none => rw [hx, hy] at h; cases h
    | some y =>
      rw [hx, hy] at h
      cases h
      exact set_set_perm l i j x y hx hy

lemma set_of_get? {α : Type} :
    ∀ (l : List α) (i : Nat) (x : α), l.get? i = some x → l.set i x = l := by
  intro l
  induction l with
  | nil => intro i x h; cases i <;> cases h
  | cons a t ih =>
    intro i x h
    cases i with
    | zero => cases h; rfl
    | succ i =>
      show a :: t.set i x = a :: t
      rw [ih i x h]

lemma update_selected_segment_map_id (a : App)
    (f : SegmentConfig → SegmentConfig × String)
    (hf : ∀ s, ((f s).1).id = s.id) :
    (update_selected_segment a f).config.segments.map SegmentConfig.id
      = a.config.segments.map SegmentConfig.id := by
  unfold update_selected_segment
  cases hget : a.config.segments.get? a.selected_segment with
  | none => rfl
  | some segment =>
    show (a.config.segments.set a.selected_segment (f segment).1).map
        SegmentConfig.id = _
    rw [List.map_set, hf]
    exact set_of_get? _ _ _ (by rw [List.get?_map, hget]; rfl)

/-- Claim C9: toggling enabled (segment-list panel, or settings panel with the
Enabled field) maps the selected segment to itself with only the enabled flag
negated and leaves every other position untouched; every toggle_current call
leaves the list of segment kinds unchanged position by position; and whenever
move_segment_up / move_segment_down produce a next state, its segment list is
a permutation of the previous one (an adjacent transposition), so the
multiset of segment kinds is invariant under every toggle and reorder. -/
theorem toggle_and_reorder_preserve_kind (a : App) :
    ((a.selected_panel = Panel.SegmentList
        ∨ (a.selected_panel = Panel.Settings
           ∧ a.selected_field = FieldSelection.Enabled)) →
      (toggle_current a).config.segments.get? a.selected_segment
          = (a.config.segments.get? a.selected_segment).map
              (fun s => { s with enabled := !s.enabled })
      ∧ ∀ j, j ≠ a.selected_segment →
          (toggle_current a).config.segments.get? j = a.config.segments.get? j)
    ∧ ((toggle_current a).config.segments.map SegmentConfig.id
        = a.config.segments.map SegmentConfig.id)
    ∧ (∀ b, move_segment_up a = some b →
        b.config.segments.Perm a.config.segments
        ∧ (b.config.segments.map SegmentConfig.id).Perm
            (a.config.segments.map SegmentConfig.id))
    ∧ (∀ b, move_segment_down a = some b →
        b.config.segments.Perm a.config.segments
        ∧ (b.config.segments.map SegmentConfig.id).Perm
            (a.config.segments.map SegmentConfig.id)) := by
  refine ⟨?_, ?_, ?_, ?_⟩
  · intro hctx
    have htog : toggle_current a = update_selected_segment a toggle_enabled_step := by
      rcases hctx with h | ⟨h1, h2⟩
      · unfold toggle_current; rw [h]
      · unfold toggle_current; rw [h1, h2]
    rw [htog]
    unfold update_selected_segment
    cases hget : a.config.segments.get? a.selected_segment with
    | none => exact ⟨by rw [hget]; rfl, fun j _ => rfl⟩
    | some segment =>
      constructor
      · show (a.config.segments.set a.selected_segment
            (toggle_enabled_step segment).1).get? a.selected_segment = _
        rw [List.get?_set_eq, hget]
        rfl
      · intro j hj
        exact List.get?_set_ne _ a.config.segments (fun h => hj h.symm)
  · obtain ⟨cfg, panel, field, sel, msg, cpo, iso⟩ := a
    cases panel with
    | SegmentList => exact update_selected_segment_map_id _ _ (fun s => rfl)
    | Settings =>
      cases field <;>
        first
        | exact update_selected_segment_map_id _ _ (fun s => rfl)
        | rfl
  · intro b hb
    unfold move_segment_up at hb
    split at hb
    · cases hsw : listSwap a.config.segments a.selected_segment
          (a.selected_segment - 1) with
      | none => rw [hsw] at hb; cases hb
      | some segments =>
        rw [hsw] at hb
        cases hb
        have hperm := listSwap_perm _ _ _ _ hsw
        exact ⟨hperm, List.Perm.map _ hperm⟩
    · cases hb
      exact ⟨List.Perm.refl _, List.Perm.refl _⟩
  · intro b hb
    unfold move_segment_down at hb
    split at hb
    · cases hsw : listSwap a.config.segments a.selected_segment
          (a.selected_segment + 1) with
      | none => rw [hsw] at hb; cases hb
      | some segments =>
        rw [hsw] at hb
        cases hb
        have hperm := listSwap_perm _ _ _ _ hsw
        exact ⟨hperm, List.Perm.map _ hperm⟩
    · cases hb
      exact ⟨List.Perm.refl _, List.Perm.refl _⟩

def segA : SegmentConfig := mkSeg SegmentId.Model []

def segB : SegmentConfig := mkSeg SegmentId.Directory []

def appEx : App :=
  { config := mkCfg [segA, segB], selected_panel := Panel.SegmentList,
    selected_field := FieldSelection.Enabled, selected_segment := 0,
    status_message := none, color_picker_open := false,
    icon_selector_open := false }

def appExDown : App :=
  { appEx with
    config := { appEx.config with segments := [segB, segA] },
    selected_segment := 1,
    status_message := some "Moved segment down" }

theorem toggle_and_reorder_preserve_kind_witness :
    (toggle_current appEx).config.segments.get? 0
      = (appEx.config.segments.get? 0).map (fun s => { s with enabled := !s.enabled })
    ∧ (toggle_current appEx).config.segments.map SegmentConfig.id
      = appEx.config.segments.map SegmentConfig.id
    ∧ appExDown.config.segments.Perm appEx.config.segments := by
  have h := toggle_and_reorder_preserve_kind appEx
  exact ⟨(h.1 (Or.inl rfl)).1, h.2.1, (h.2.2.2 appExDown rfl).1⟩

end CCometix
